import Mathlib

/-!
Verification of the order state machine and financial calculation core of a
restaurant point-of-sale backend.

The embedding below mirrors, definition by definition, the TypeScript source:

* `src/server/services/calculation.service.ts` (BigInt version): the money
  module (`calculateItemTotal`, `calculateSubtotal`, `calculateDiscount`,
  `calculateGrandTotal`, `recalculateOrderTotals`, `toBigInt`).
* `src/server/services/order.service.ts` (BigInt version): the pure state
  machine (`STATE_TRANSITIONS`, `validateStateTransition`, `canAddItems`,
  `canModifyItems`, `canVoidItem`, `canCheckout`, `canCancel`,
  `getNextBatchSequence`) and the mutation operations (`addItemsToOrder`,
  `confirmOrder`, `voidOrderItem`, `updateItemQuantity`, `checkoutOrder`,
  `cancelOrder`).
* `src/server/lib/errors.ts`: error kinds and messages.

Conventions of the embedding:

* JavaScript `BigInt` values are modelled as `Int` (arbitrary precision,
  signed); `BigInt` division truncates toward zero, which is `Int.tdiv`.
* JavaScript `number` values that carry monetary/percentage inputs are
  modelled as `ℚ`; `Math.round x` is `⌊x + 1/2⌋` (round half toward +∞),
  exactly the JavaScript semantics on the values considered here.
* Each service operation runs inside `withOrderLock`, which hands it a
  consistent snapshot of the order row plus its items and rolls the
  transaction back when the operation throws.  An operation is therefore a
  pure function from the locked snapshot (an `Order`) to
  `Except AppError Order`: an `Except.error` result models a thrown error
  with the whole transaction rolled back, so the stored order is unchanged.
* Database writes inside the transaction are modelled by functional record
  update of the snapshot.
-/

namespace POS

/-- Order lifecycle status, from the Prisma schema enum `OrderStatus`. -/
inductive OrderStatus
  | OPEN
  | CONFIRMED
  | PAID
  | CANCELLED
deriving DecidableEq, Repr, Fintype

/-- Order item status, from the Prisma schema enum `OrderItemStatus`. -/
inductive OrderItemStatus
  | ACTIVE
  | VOIDED
deriving DecidableEq, Repr, Fintype

/-- Discount type, from `types/index.ts`: `type DiscountType = "PERCENT" | "FIXED"`. -/
inductive DiscountType
  | PERCENT
  | FIXED
deriving DecidableEq, Repr, Fintype

/-- String rendering of a status, as used by template literals in error messages. -/
def OrderStatus.statusString : OrderStatus → String
  | .OPEN => "OPEN"
  | .CONFIRMED => "CONFIRMED"
  | .PAID => "PAID"
  | .CANCELLED => "CANCELLED"

/-- Machine-stable error codes from `errors.ts` (`ErrorCode`), restricted to the
kinds raised by the order service. -/
inductive ErrorCode
  | VALIDATION_ERROR
  | NOT_FOUND
  | INVALID_STATE
  | CONFLICT
  | INTERNAL_ERROR
deriving DecidableEq, Repr

/-- A service-layer error: a machine-stable code and a human-readable message,
modelling the `AppError` class of `errors.ts`. -/
structure AppError where
  code : ErrorCode
  message : String
deriving DecidableEq, Repr

/-- Message `ErrorMessage.RESOURCE.NOT_FOUND` of `errors.ts` (the quote marks
that the source places around the id are omitted here). -/
def ErrorMessage.RESOURCE.NOT_FOUND (resource : String) (id : String) : String :=
  resource ++ " with ID " ++ id ++ " not found."

/-- Message `ErrorMessage.ORDER.INVALID_STATE_TRANSITION` of `errors.ts`. -/
def ErrorMessage.ORDER.INVALID_STATE_TRANSITION (current : String) (target : String) : String :=
  "Cannot change order status from " ++ current ++ " to " ++ target ++ "."

/-- Message `ErrorMessage.ORDER.MUST_BE_IN_STATE` of `errors.ts`. -/
def ErrorMessage.ORDER.MUST_BE_IN_STATE (required : String) (current : String) : String :=
  "Order must be " ++ required ++ " but is currently " ++ current ++ "."

/-- Message `ErrorMessage.ORDER.CANNOT_CANCEL_PAID` of `errors.ts`. -/
def ErrorMessage.ORDER.CANNOT_CANCEL_PAID : String :=
  "Cannot cancel a paid order."

/-- Message `ErrorMessage.ORDER.CANNOT_CHECKOUT_EMPTY` of `errors.ts`. -/
def ErrorMessage.ORDER.CANNOT_CHECKOUT_EMPTY : String :=
  "Cannot checkout an order with no items."

/-- Message `ErrorMessage.ORDER.CANNOT_CHECKOUT_UNCONFIRMED` of `errors.ts`. -/
def ErrorMessage.ORDER.CANNOT_CHECKOUT_UNCONFIRMED : String :=
  "Cannot checkout: order must be confirmed first."

/-- Message `ErrorMessage.ORDER_ITEM.ALREADY_VOIDED` of `errors.ts`. -/
def ErrorMessage.ORDER_ITEM.ALREADY_VOIDED : String :=
  "Item has already been voided."

/-- Message `ErrorMessage.ORDER_ITEM.CANNOT_VOID_IN_STATE` of `errors.ts`. -/
def ErrorMessage.ORDER_ITEM.CANNOT_VOID_IN_STATE (state : String) : String :=
  "Cannot void items when order is " ++ state ++ "."

/-- Message `ErrorMessage.ORDER_ITEM.QUANTITY_MIN` of `errors.ts`. -/
def ErrorMessage.ORDER_ITEM.QUANTITY_MIN : String :=
  "Quantity must be at least 1."

/-- Message `ErrorMessage.DISCOUNT.PERCENT_RANGE` of `errors.ts`. -/
def ErrorMessage.DISCOUNT.PERCENT_RANGE : String :=
  "Percentage discount must be between 0 and 50."

/-- Message `ErrorMessage.DISCOUNT.EXCEEDS_SUBTOTAL` of `errors.ts`. -/
def ErrorMessage.DISCOUNT.EXCEEDS_SUBTOTAL : String :=
  "Fixed discount cannot exceed subtotal."

/-- The `ValidationError` class of `errors.ts`: code `VALIDATION_ERROR`. -/
def ValidationError (message : String) : AppError :=
  ⟨ErrorCode.VALIDATION_ERROR, message⟩

/-- The `InvalidStateError` class of `errors.ts`: code `INVALID_STATE`. -/
def InvalidStateError (message : String) : AppError :=
  ⟨ErrorCode.INVALID_STATE, message⟩

/-- The `NotFoundError` class of `errors.ts`: code `NOT_FOUND`, message built by
`ErrorMessage.RESOURCE.NOT_FOUND`. -/
def NotFoundError (resource : String) (id : String) : AppError :=
  ⟨ErrorCode.NOT_FOUND, ErrorMessage.RESOURCE.NOT_FOUND resource id⟩

/-- An order item row (`OrderItem` model): frozen product name and unit price,
quantity, batch number, and soft-void status. -/
structure OrderItem where
  id : String
  productId : String
  productName : String
  pricePerUnit : Int
  quantity : Int
  batchSequence : Int
  status : OrderItemStatus
  voidReason : Option String
deriving DecidableEq, Repr

/-- An order row together with its items (`OrderWithItems`): the snapshot that
`withOrderLock` passes to each mutation callback. -/
structure Order where
  id : String
  tableNumber : Int
  status : OrderStatus
  subtotal : Int
  discountType : Option DiscountType
  discountValue : Option Int
  grandTotal : Int
  items : List OrderItem
deriving DecidableEq, Repr

/-- `CalculationItem` of `types/index.ts`: the projection of an item that the
calculation service consumes. -/
structure CalculationItem where
  pricePerUnit : Int
  quantity : Int
  status : OrderItemStatus
deriving DecidableEq, Repr

/-- The projection `item => ({pricePerUnit, quantity, status})` that every
service operation applies before calling `recalculateOrderTotals`. -/
def toCalculationItem (item : OrderItem) : CalculationItem :=
  ⟨item.pricePerUnit, item.quantity, item.status⟩

/-- `calculateItemTotal` of `calculation.service.ts`: price times quantity in
minor currency units (satang). -/
def calculateItemTotal (pricePerUnit : Int) (quantity : Int) : Int :=
  pricePerUnit * quantity

/-- `calculateSubtotal` of `calculation.service.ts`: sum of item totals over
ACTIVE items only (a filter followed by a reduce starting from `0n`). -/
def calculateSubtotal (items : List CalculationItem) : Int :=
  (items.filter (fun item => item.status = OrderItemStatus.ACTIVE)).foldl
    (fun sum item => sum + calculateItemTotal item.pricePerUnit item.quantity) 0

/-- `calculateDiscount` of `calculation.service.ts`.  `BigInt` division in
JavaScript truncates toward zero, which is `Int.tdiv`. -/
def calculateDiscount (subtotal : Int) (type : Option DiscountType) (value : Option Int) : Int :=
  match type, value with
  | none, _ => 0
  | _, none => 0
  | some DiscountType.PERCENT, some v => Int.tdiv (subtotal * v) 100
  | some DiscountType.FIXED, some v => v

/-- `calculateGrandTotal` of `calculation.service.ts`: subtotal minus discount,
floored at zero (`total > 0n ? total : 0n`). -/
def calculateGrandTotal (subtotal : Int) (discount : Int) : Int :=
  let total := subtotal - discount
  if 0 < total then total else 0

/-- The result triple of `recalculateOrderTotals`. -/
structure OrderTotals where
  subtotal : Int
  discount : Int
  grandTotal : Int
deriving DecidableEq, Repr

/-- `recalculateOrderTotals` of `calculation.service.ts`: recompute subtotal,
discount and grand total together from the current item state. -/
def recalculateOrderTotals (items : List CalculationItem) (discountType : Option DiscountType)
    (discountValue : Option Int) : OrderTotals :=
  let subtotal := calculateSubtotal items
  let discount := calculateDiscount subtotal discountType discountValue
  let grandTotal := calculateGrandTotal subtotal discount
  ⟨subtotal, discount, grandTotal⟩

/-- JavaScript `Math.round x`, which is `⌊x + 1/2⌋` (half rounds toward +∞). -/
def mathRound (x : ℚ) : Int :=
  ⌊x + 1/2⌋

/-- `toBigInt` of `calculation.service.ts` on the JavaScript `number` branch:
`BigInt(Math.round(value))`.  (On a value that is already a `BigInt` the
function is the identity, which needs no model.) -/
def toBigInt (value : ℚ) : Int :=
  mathRound value

/-- `STATE_TRANSITIONS` of `order.service.ts`: the directed acyclic transition
table; `PAID` and `CANCELLED` are terminal. -/
def STATE_TRANSITIONS (status : OrderStatus) : List OrderStatus :=
  match status with
  | OrderStatus.OPEN => [OrderStatus.CONFIRMED, OrderStatus.CANCELLED]
  | OrderStatus.CONFIRMED => [OrderStatus.PAID, OrderStatus.CANCELLED]
  | OrderStatus.PAID => []
  | OrderStatus.CANCELLED => []

/-- `validateStateTransition` of `order.service.ts`. -/
def validateStateTransition (currentStatus : OrderStatus) (newStatus : OrderStatus) : Bool :=
  (STATE_TRANSITIONS currentStatus).contains newStatus

/-- `canAddItems` of `order.service.ts`: allowed in OPEN and CONFIRMED. -/
def canAddItems (status : OrderStatus) : Bool :=
  status == OrderStatus.OPEN || status == OrderStatus.CONFIRMED

/-- `canModifyItems` of `order.service.ts`: allowed in OPEN only. -/
def canModifyItems (status : OrderStatus) : Bool :=
  status == OrderStatus.OPEN

/-- `canVoidItem` of `order.service.ts`: allowed in CONFIRMED only. -/
def canVoidItem (status : OrderStatus) : Bool :=
  status == OrderStatus.CONFIRMED

/-- `canCheckout` of `order.service.ts`: allowed in CONFIRMED only. -/
def canCheckout (status : OrderStatus) : Bool :=
  status == OrderStatus.CONFIRMED

/-- `canCancel` of `order.service.ts`: allowed in OPEN and CONFIRMED. -/
def canCancel (status : OrderStatus) : Bool :=
  status == OrderStatus.OPEN || status == OrderStatus.CONFIRMED

/-- `getNextBatchSequence` of `order.service.ts`: `1` for an empty item list,
otherwise `Math.max` of the existing batch sequences plus one. -/
def getNextBatchSequence (items : List OrderItem) : Int :=
  match items.map (fun item => item.batchSequence) with
  | [] => 1
  | b :: bs => bs.foldl max b + 1

/-- One line of an add-items request after product resolution: the service has
already looked the product up (frozen `productName` and `pricePerUnit` are
copied from it) and the database has assigned the new row id `id`. -/
structure ResolvedOrderItemInput where
  id : String
  productId : String
  productName : String
  pricePerUnit : Int
  quantity : Int
deriving DecidableEq, Repr

/-- `addItemsToOrder` of `order.service.ts`, from the state check inside the
lock onward: stamp every inserted item with the next batch sequence computed
from the locked snapshot, then recompute totals over old plus new items
preserving the existing discount. -/
def addItemsToOrder (order : Order) (itemsInput : List ResolvedOrderItemInput) :
    Except AppError Order :=
  if canAddItems order.status = false then
    Except.error (InvalidStateError
      (ErrorMessage.ORDER.MUST_BE_IN_STATE "OPEN or CONFIRMED" order.status.statusString))
  else
    let nextBatch := getNextBatchSequence order.items
    let newItems := itemsInput.map (fun input =>
      { id := input.id
        productId := input.productId
        productName := input.productName
        pricePerUnit := input.pricePerUnit
        quantity := input.quantity
        batchSequence := nextBatch
        status := OrderItemStatus.ACTIVE
        voidReason := none : OrderItem })
    let allItems := order.items ++ newItems
    let totals := recalculateOrderTotals (allItems.map toCalculationItem)
      order.discountType order.discountValue
    Except.ok { order with
      items := allItems
      subtotal := totals.subtotal
      grandTotal := totals.grandTotal }

/-- `confirmOrder` of `order.service.ts`: requires the OPEN to CONFIRMED
transition and at least one ACTIVE item, then sets the status only. -/
def confirmOrder (order : Order) : Except AppError Order :=
  if validateStateTransition order.status OrderStatus.CONFIRMED = false then
    Except.error (InvalidStateError
      (ErrorMessage.ORDER.INVALID_STATE_TRANSITION order.status.statusString
        (OrderStatus.statusString OrderStatus.CONFIRMED)))
  else
    let activeItems := order.items.filter (fun item => item.status = OrderItemStatus.ACTIVE)
    if activeItems.length = 0 then
      Except.error (ValidationError ErrorMessage.ORDER.CANNOT_CHECKOUT_EMPTY)
    else
      Except.ok { order with status := OrderStatus.CONFIRMED }

/-- `voidOrderItem` of `order.service.ts`: only in CONFIRMED, only an existing
item, only if not yet VOIDED; then soft-void with the reason and recompute
totals preserving the existing discount. -/
def voidOrderItem (order : Order) (itemId : String) (reason : String) :
    Except AppError Order :=
  if canVoidItem order.status = false then
    Except.error (InvalidStateError
      (ErrorMessage.ORDER_ITEM.CANNOT_VOID_IN_STATE order.status.statusString))
  else
    match order.items.find? (fun i => i.id == itemId) with
    | none => Except.error (NotFoundError "Order item" itemId)
    | some item =>
      if item.status = OrderItemStatus.VOIDED then
        Except.error (InvalidStateError ErrorMessage.ORDER_ITEM.ALREADY_VOIDED)
      else
        let allItems := order.items.map (fun i =>
          if i.id == itemId then
            { i with status := OrderItemStatus.VOIDED, voidReason := some reason }
          else i)
        let totals := recalculateOrderTotals (allItems.map toCalculationItem)
          order.discountType order.discountValue
        Except.ok { order with
          items := allItems
          subtotal := totals.subtotal
          grandTotal := totals.grandTotal }

/-- `updateItemQuantity` of `order.service.ts`: quantity at least 1 is checked
before the lock, the state must admit item modification (OPEN only), the item
must exist and be ACTIVE; then the quantity is replaced and totals recomputed. -/
def updateItemQuantity (order : Order) (itemId : String) (quantity : Int) :
    Except AppError Order :=
  if quantity < 1 then
    Except.error (ValidationError ErrorMessage.ORDER_ITEM.QUANTITY_MIN)
  else if canModifyItems order.status = false then
    Except.error (InvalidStateError
      (ErrorMessage.ORDER.MUST_BE_IN_STATE "OPEN" order.status.statusString))
  else
    match order.items.find? (fun i => i.id == itemId) with
    | none => Except.error (NotFoundError "Order item" itemId)
    | some item =>
      if item.status = OrderItemStatus.VOIDED then
        Except.error (InvalidStateError ErrorMessage.ORDER_ITEM.ALREADY_VOIDED)
      else
        let allItems := order.items.map (fun i =>
          if i.id == itemId then { i with quantity := quantity } else i)
        let totals := recalculateOrderTotals (allItems.map toCalculationItem)
          order.discountType order.discountValue
        Except.ok { order with
          items := allItems
          subtotal := totals.subtotal
          grandTotal := totals.grandTotal }

/-- The discount validation that `checkoutOrder` performs before acquiring the
order lock (`order.service.ts`, start of `checkoutOrder`): a value is required
when a type is given; a PERCENT value must be within `[0, 50]`; finally the
value is converted with `toBigInt`.  Returns `discountValueBigInt`. -/
def checkoutValidateDiscount (discountType : Option DiscountType) (discountValue : Option ℚ) :
    Except AppError (Option Int) :=
  if discountType.isSome && discountValue.isNone then
    Except.error (ValidationError "Discount value is required when type is specified")
  else
    match discountType, discountValue with
    | some DiscountType.PERCENT, some v =>
      if v < 0 ∨ 50 < v then
        Except.error (ValidationError ErrorMessage.DISCOUNT.PERCENT_RANGE)
      else
        Except.ok (some (toBigInt v))
    | _, some v => Except.ok (some (toBigInt v))
    | _, none => Except.ok none

/-- The test `discountType === "FIXED" && discountValueBigInt !== null &&
discountValueBigInt > subtotal` guarding the EXCEEDS_SUBTOTAL error inside
`checkoutOrder`. -/
def fixedDiscountExceeds (discountType : Option DiscountType) (discountValueBigInt : Option Int)
    (subtotal : Int) : Bool :=
  discountType == some DiscountType.FIXED &&
    (match discountValueBigInt with
     | some v => decide (subtotal < v)
     | none => false)

/-- The body that `checkoutOrder` runs inside `withOrderLock`: the CONFIRMED
check (the double-checkout guard), the ACTIVE-items check, the recomputation of
totals from the snapshot items, the FIXED-exceeds-subtotal check, and the final
write that marks the order PAID. -/
def checkoutApply (order : Order) (discountType : Option DiscountType)
    (discountValueBigInt : Option Int) : Except AppError Order :=
  if canCheckout order.status = false then
    Except.error (InvalidStateError ErrorMessage.ORDER.CANNOT_CHECKOUT_UNCONFIRMED)
  else
    let activeItems := order.items.filter (fun item => item.status = OrderItemStatus.ACTIVE)
    if activeItems.length = 0 then
      Except.error (ValidationError ErrorMessage.ORDER.CANNOT_CHECKOUT_EMPTY)
    else
      let totals := recalculateOrderTotals (order.items.map toCalculationItem)
        discountType discountValueBigInt
      if fixedDiscountExceeds discountType discountValueBigInt totals.subtotal then
        Except.error (ValidationError ErrorMessage.DISCOUNT.EXCEEDS_SUBTOTAL)
      else
        Except.ok { order with
          status := OrderStatus.PAID
          subtotal := totals.subtotal
          discountType := discountType
          discountValue := discountValueBigInt
          grandTotal := totals.grandTotal }

/-- `checkoutOrder` of `order.service.ts`: pre-lock discount validation and
conversion, then the locked body. -/
def checkoutOrder (order : Order) (discountType : Option DiscountType)
    (discountValue : Option ℚ) : Except AppError Order :=
  match checkoutValidateDiscount discountType discountValue with
  | Except.error e => Except.error e
  | Except.ok discountValueBigInt => checkoutApply order discountType discountValueBigInt

/-- `cancelOrder` of `order.service.ts`: allowed in OPEN and CONFIRMED; a PAID
order gets the dedicated cannot-cancel-paid message; items and totals are left
untouched. -/
def cancelOrder (order : Order) : Except AppError Order :=
  if canCancel order.status = false then
    if order.status = OrderStatus.PAID then
      Except.error (InvalidStateError ErrorMessage.ORDER.CANNOT_CANCEL_PAID)
    else
      Except.error (InvalidStateError
        (ErrorMessage.ORDER.INVALID_STATE_TRANSITION order.status.statusString
          (OrderStatus.statusString OrderStatus.CANCELLED)))
  else
    Except.ok { order with status := OrderStatus.CANCELLED }

/-! Helper lemmas. -/

/-- Unfolding the reduce of `calculateSubtotal` into a mapped sum. -/
theorem foldl_itemTotal_eq (l : List CalculationItem) (a : Int) :
    l.foldl (fun sum item => sum + calculateItemTotal item.pricePerUnit item.quantity) a
      = a + (l.map (fun item => item.pricePerUnit * item.quantity)).sum := by
  induction l generalizing a with
  | nil => simp
  | cons x xs ih =>
    rw [List.foldl_cons, ih, List.map_cons, List.sum_cons]
    unfold calculateItemTotal
    ring

/-- The subtotal is the sum of price times quantity over the ACTIVE items. -/
theorem calculateSubtotal_eq_sum (items : List CalculationItem) :
    calculateSubtotal items
      = ((items.filter (fun item => item.status = OrderItemStatus.ACTIVE)).map
          (fun item => item.pricePerUnit * item.quantity)).sum := by
  unfold calculateSubtotal
  rw [foldl_itemTotal_eq]
  simp

/-- The conditional in `calculateGrandTotal` is a maximum with zero. -/
theorem calculateGrandTotal_eq_max (subtotal discount : Int) :
    calculateGrandTotal subtotal discount = max 0 (subtotal - discount) := by
  show (if 0 < subtotal - discount then subtotal - discount else 0)
    = max 0 (subtotal - discount)
  rw [Int.max_def]
  split <;> split <;> omega

/-- `toBigInt` is the identity on integral values. -/
theorem toBigInt_intCast (v : Int) : toBigInt (v : ℚ) = v := by
  unfold toBigInt mathRound
  rw [Int.floor_int_add]
  norm_num

/-! Claim theorems. -/

/-- C2: for subtotal and discount value both nonnegative, `calculateDiscount`
returns 0 when the type or the value is absent, the floor of
subtotal times value over 100 for PERCENT (9999 at 15 percent gives 1499, not
1500), and the value itself for FIXED. -/
theorem calculateDiscount_spec (s v : Int) (hs : 0 ≤ s) (hv : 0 ≤ v) :
    (∀ value, calculateDiscount s none value = 0) ∧
    (∀ type, calculateDiscount s type none = 0) ∧
    calculateDiscount s (some DiscountType.PERCENT) (some v) = ⌊((s * v : Int) : ℚ) / 100⌋ ∧
    calculateDiscount s (some DiscountType.FIXED) (some v) = v ∧
    calculateDiscount 9999 (some DiscountType.PERCENT) (some 15) = 1499 := by
  refine ⟨fun value => by cases value <;> rfl, ?_, ?_, rfl, by decide⟩
  · intro type
    cases type with
    | none => rfl
    | some t => cases t <;> rfl
  · show Int.tdiv (s * v) 100 = _
    rw [Int.tdiv_eq_ediv (mul_nonneg hs hv) (by norm_num)]
    rw [show ((100 : ℚ)) = ((100 : ℕ) : ℚ) by norm_num, Rat.floor_intCast_div_natCast]
    norm_num

/-- C2 witness: the theorem applied at subtotal 9999 and value 15. -/
theorem calculateDiscount_spec_witness :
    (0 : Int) ≤ 9999 ∧ (0 : Int) ≤ 15 ∧
      calculateDiscount 9999 (some DiscountType.PERCENT) (some 15) = 1499 :=
  ⟨by decide, by decide, (calculateDiscount_spec 9999 15 (by decide) (by decide)).2.2.2.2⟩

/-- C3: `recalculateOrderTotals` returns a subtotal equal to the sum of price
times quantity over exactly the ACTIVE items (zero for an empty or an
all-voided list) and a grand total equal to max 0 (subtotal minus discount),
hence never negative. -/
theorem recalculateOrderTotals_spec (items : List CalculationItem)
    (discountType : Option DiscountType) (discountValue : Option Int) :
    (recalculateOrderTotals items discountType discountValue).subtotal
        = ((items.filter (fun item => item.status = OrderItemStatus.ACTIVE)).map
            (fun item => item.pricePerUnit * item.quantity)).sum ∧
    (recalculateOrderTotals items discountType discountValue).grandTotal
        = max 0 ((recalculateOrderTotals items discountType discountValue).subtotal
            - (recalculateOrderTotals items discountType discountValue).discount) ∧
    0 ≤ (recalculateOrderTotals items discountType discountValue).grandTotal ∧
    (items = [] → (recalculateOrderTotals items discountType discountValue).subtotal = 0) ∧
    ((∀ item ∈ items, item.status = OrderItemStatus.VOIDED) →
        (recalculateOrderTotals items discountType discountValue).subtotal = 0) := by
  refine ⟨calculateSubtotal_eq_sum items, calculateGrandTotal_eq_max _ _, ?_, ?_, ?_⟩
  · rw [show (recalculateOrderTotals items discountType discountValue).grandTotal
        = calculateGrandTotal (calculateSubtotal items)
            (calculateDiscount (calculateSubtotal items) discountType discountValue) from rfl]
    rw [calculateGrandTotal_eq_max]
    exact le_max_left 0 _
  · intro h
    subst h
    rfl
  · intro h
    rw [show (recalculateOrderTotals items discountType discountValue).subtotal
        = calculateSubtotal items from rfl, calculateSubtotal_eq_sum]
    have hfilter : items.filter (fun item => item.status = OrderItemStatus.ACTIVE) = [] := by
      rw [List.filter_eq_nil_iff]
      intro a ha
      have := h a ha
      simp [this]
    rw [hfilter]
    simp

/-- C3 witness: the theorem applied to an all-voided two-item list with a FIXED
discount larger than the subtotal. -/
theorem recalculateOrderTotals_spec_witness :
    ([(⟨500, 2, OrderItemStatus.VOIDED⟩ : CalculationItem)] = [] →
        (recalculateOrderTotals [⟨500, 2, OrderItemStatus.VOIDED⟩]
          (some DiscountType.FIXED) (some 300)).subtotal = 0) ∧
    ((∀ item ∈ [(⟨500, 2, OrderItemStatus.VOIDED⟩ : CalculationItem)],
        item.status = OrderItemStatus.VOIDED) →
      (recalculateOrderTotals [⟨500, 2, OrderItemStatus.VOIDED⟩]
          (some DiscountType.FIXED) (some 300)).subtotal = 0) :=
  ⟨(recalculateOrderTotals_spec [⟨500, 2, OrderItemStatus.VOIDED⟩]
      (some DiscountType.FIXED) (some 300)).2.2.2.1,
   (recalculateOrderTotals_spec [⟨500, 2, OrderItemStatus.VOIDED⟩]
      (some DiscountType.FIXED) (some 300)).2.2.2.2⟩

/-- C4: the pure state-machine predicates decide exactly the authoritative
tables: transitions OPEN to CONFIRMED or CANCELLED and CONFIRMED to PAID or
CANCELLED with PAID and CANCELLED terminal; adding allowed in OPEN and
CONFIRMED; quantity edits in OPEN only; voiding in CONFIRMED only; checkout in
CONFIRMED only; cancelling in OPEN and CONFIRMED. -/
theorem state_machine_tables :
    (∀ c t : OrderStatus, validateStateTransition c t = true ↔
        ((c = OrderStatus.OPEN ∧ (t = OrderStatus.CONFIRMED ∨ t = OrderStatus.CANCELLED)) ∨
         (c = OrderStatus.CONFIRMED ∧ (t = OrderStatus.PAID ∨ t = OrderStatus.CANCELLED)))) ∧
    (∀ s : OrderStatus, canAddItems s = true ↔ (s = OrderStatus.OPEN ∨ s = OrderStatus.CONFIRMED)) ∧
    (∀ s : OrderStatus, canModifyItems s = true ↔ s = OrderStatus.OPEN) ∧
    (∀ s : OrderStatus, canVoidItem s = true ↔ s = OrderStatus.CONFIRMED) ∧
    (∀ s : OrderStatus, canCheckout s = true ↔ s = OrderStatus.CONFIRMED) ∧
    (∀ s : OrderStatus, canCancel s = true ↔ (s = OrderStatus.OPEN ∨ s = OrderStatus.CONFIRMED)) := by
  decide

/-- C1: an order in a terminal status (PAID or CANCELLED) is rejected with an
error by all six mutation operations.  In this embedding every operation is a
pure function from the locked snapshot to `Except AppError Order`, and
`withOrderLock` rolls the transaction back on a thrown error, so an
`Except.error` result leaves status, items, subtotal, discount fields and
grandTotal exactly as they were. -/
theorem terminal_orders_reject_every_mutation (order : Order)
    (h : order.status = OrderStatus.PAID ∨ order.status = OrderStatus.CANCELLED) :
    (∀ itemsInput, ∃ e, addItemsToOrder order itemsInput = Except.error e) ∧
    (∃ e, confirmOrder order = Except.error e) ∧
    (∀ itemId reason, ∃ e, voidOrderItem order itemId reason = Except.error e) ∧
    (∀ itemId quantity, ∃ e, updateItemQuantity order itemId quantity = Except.error e) ∧
    (∀ discountType discountValue, ∃ e,
        checkoutOrder order discountType discountValue = Except.error e) ∧
    (∃ e, cancelOrder order = Except.error e) := by
  have hadd : canAddItems order.status = false := by
    rcases h with h | h <;> rw [h] <;> rfl
  have hconf : validateStateTransition order.status OrderStatus.CONFIRMED = false := by
    rcases h with h | h <;> rw [h] <;> rfl
  have hvoid : canVoidItem order.status = false := by
    rcases h with h | h <;> rw [h] <;> rfl
  have hmod : canModifyItems order.status = false := by
    rcases h with h | h <;> rw [h] <;> rfl
  have hco : canCheckout order.status = false := by
    rcases h with h | h <;> rw [h] <;> rfl
  have hcan : canCancel order.status = false := by
    rcases h with h | h <;> rw [h] <;> rfl
  refine ⟨?_, ?_, ?_, ?_, ?_, ?_⟩
  · intro itemsInput
    simp [addItemsToOrder, hadd]
  · simp [confirmOrder, hconf]
  · intro itemId reason
    simp [voidOrderItem, hvoid]
  · intro itemId quantity
    by_cases hq : quantity < 1
    · simp [updateItemQuantity, hq]
    · simp [updateItemQuantity, hq, hmod]
  · intro discountType discountValue
    cases hval : checkoutValidateDiscount discountType discountValue with
    | error e => exact ⟨e, by simp [checkoutOrder, hval]⟩
    | ok dvB => simp [checkoutOrder, hval, checkoutApply, hco]
  · rcases h with h | h
    · simp [cancelOrder, canCancel, h]
    · simp [cancelOrder, canCancel, h]

/-- An active one-line item worth 10000 satang, used by the witnesses. -/
def sampleItem : OrderItem :=
  ⟨"item-1", "prod-1", "Green Curry", 10000, 1, 1, OrderItemStatus.ACTIVE, none⟩

/-- A CONFIRMED order with one active item and subtotal 10000, used by the
witnesses. -/
def sampleConfirmedOrder : Order :=
  ⟨"order-1", 5, OrderStatus.CONFIRMED, 10000, none, none, 10000, [sampleItem]⟩

/-- A PAID order, used by the witnesses for the terminal-state claims. -/
def samplePaidOrder : Order :=
  ⟨"order-2", 7, OrderStatus.PAID, 10000, none, none, 10000, [sampleItem]⟩

/-- C1 witness: the theorem applied to a concrete PAID order, specialised to a
concrete call of each operation. -/
theorem terminal_orders_reject_every_mutation_witness :
    (samplePaidOrder.status = OrderStatus.PAID ∨
      samplePaidOrder.status = OrderStatus.CANCELLED) ∧
    (∃ e, confirmOrder samplePaidOrder = Except.error e) ∧
    (∃ e, cancelOrder samplePaidOrder = Except.error e) ∧
    (∃ e, voidOrderItem samplePaidOrder "item-1" "wrong order" = Except.error e) ∧
    (∃ e, checkoutOrder samplePaidOrder none none = Except.error e) :=
  have h := terminal_orders_reject_every_mutation samplePaidOrder (Or.inl rfl)
  ⟨Or.inl rfl, h.2.1, h.2.2.2.2.2, h.2.2.1 "item-1" "wrong order", h.2.2.2.2.1 none none⟩

/-- C7: `confirmOrder` raises InvalidState when the snapshot status does not
admit the transition to CONFIRMED, raises Validation (not InvalidState) when
the status is OPEN but there is no ACTIVE item, and otherwise only sets the
status to CONFIRMED, leaving items, subtotal, discount fields and grandTotal
unchanged. -/
theorem confirmOrder_spec (order : Order) :
    (validateStateTransition order.status OrderStatus.CONFIRMED = false →
      ∃ msg, confirmOrder order = Except.error (InvalidStateError msg)) ∧
    (order.status = OrderStatus.OPEN →
      (order.items.filter (fun item => item.status = OrderItemStatus.ACTIVE)).length = 0 →
      confirmOrder order = Except.error (ValidationError ErrorMessage.ORDER.CANNOT_CHECKOUT_EMPTY)) ∧
    (validateStateTransition order.status OrderStatus.CONFIRMED = true →
      (order.items.filter (fun item => item.status = OrderItemStatus.ACTIVE)).length ≠ 0 →
      confirmOrder order = Except.ok { order with status := OrderStatus.CONFIRMED }) ∧
    (∀ o, confirmOrder order = Except.ok o →
      o.status = OrderStatus.CONFIRMED ∧ o.subtotal = order.subtotal ∧
      o.grandTotal = order.grandTotal ∧ o.items = order.items ∧
      o.discountType = order.discountType ∧ o.discountValue = order.discountValue) := by
  refine ⟨?_, ?_, ?_, ?_⟩
  · intro h
    simp [confirmOrder, h, InvalidStateError]
  · intro h1 h2
    have ht : validateStateTransition order.status OrderStatus.CONFIRMED = true := by
      rw [h1]; rfl
    simp [confirmOrder, ht, h2]
  · intro h1 h2
    simp [confirmOrder, h1, h2]
  · intro o ho
    simp only [confirmOrder] at ho
    split at ho
    · cases ho
    · split at ho
      · cases ho
      · injection ho with ho
        subst ho
        exact ⟨rfl, rfl, rfl, rfl, rfl, rfl⟩

/-- An OPEN order with no active items, used by the C7 witness. -/
def sampleEmptyOpenOrder : Order :=
  ⟨"order-3", 4, OrderStatus.OPEN, 0, none, none, 0, []⟩

/-- C7 witness: confirming an OPEN order with no active items is a Validation
error. -/
theorem confirmOrder_spec_witness :
    confirmOrder sampleEmptyOpenOrder =
      Except.error (ValidationError ErrorMessage.ORDER.CANNOT_CHECKOUT_EMPTY) :=
  (confirmOrder_spec sampleEmptyOpenOrder).2.1 rfl (by decide)

/-- C8: `voidOrderItem` raises InvalidState when the order is not CONFIRMED,
NotFound when no item of the order has the given id, and InvalidState (never
silent success) when the targeted item is already VOIDED; in particular a
second void of the same item is rejected. -/
theorem voidOrderItem_spec (order : Order) (itemId : String) (reason : String) :
    (order.status ≠ OrderStatus.CONFIRMED →
      ∃ msg, voidOrderItem order itemId reason = Except.error (InvalidStateError msg)) ∧
    (order.status = OrderStatus.CONFIRMED →
      order.items.find? (fun i => i.id == itemId) = none →
      voidOrderItem order itemId reason = Except.error (NotFoundError "Order item" itemId)) ∧
    (∀ item, order.status = OrderStatus.CONFIRMED →
      order.items.find? (fun i => i.id == itemId) = some item →
      item.status = OrderItemStatus.VOIDED →
      voidOrderItem order itemId reason =
        Except.error (InvalidStateError ErrorMessage.ORDER_ITEM.ALREADY_VOIDED)) ∧
    (∀ o, voidOrderItem order itemId reason = Except.ok o →
      ∀ reason2, voidOrderItem o itemId reason2 =
        Except.error (InvalidStateError ErrorMessage.ORDER_ITEM.ALREADY_VOIDED)) := by
  refine ⟨?_, ?_, ?_, ?_⟩
  · intro h
    have hv : canVoidItem order.status = false := by
      show (order.status == OrderStatus.CONFIRMED) = false
      rw [beq_eq_false_iff_ne]
      exact h
    simp [voidOrderItem, hv, InvalidStateError]
  · intro h1 h2
    simp [voidOrderItem, canVoidItem, h1, h2]
  · intro item h1 h2 h3
    simp [voidOrderItem, canVoidItem, h1, h2, h3]
  · intro o ho reason2
    simp only [voidOrderItem] at ho
    by_cases hst : canVoidItem order.status = false
    · rw [if_pos hst] at ho
      cases ho
    · rw [if_neg hst] at ho
      cases hfind : order.items.find? (fun i => i.id == itemId) with
      | none =>
        simp only [hfind] at ho
        cases ho
      | some item =>
        simp only [hfind] at ho
        by_cases hvd : item.status = OrderItemStatus.VOIDED
        · rw [if_pos hvd] at ho
          cases ho
        · rw [if_neg hvd] at ho
          injection ho with ho
          subst ho
          have hsttrue : canVoidItem order.status = true := by
            cases hcv : canVoidItem order.status
            · exact absurd hcv hst
            · rfl
          have hid : item.id = itemId := by
            simpa using List.find?_some hfind
          have hfind2 : (order.items.map (fun i =>
              if i.id == itemId then
                { i with status := OrderItemStatus.VOIDED, voidReason := some reason }
              else i)).find? (fun i => i.id == itemId)
              = some { item with
                  status := OrderItemStatus.VOIDED, voidReason := some reason } := by
            rw [List.find?_map]
            have hcomp : ((fun i : OrderItem => i.id == itemId) ∘ (fun i =>
                if i.id == itemId then
                  { i with status := OrderItemStatus.VOIDED, voidReason := some reason }
                else i)) = (fun i : OrderItem => i.id == itemId) := by
              funext i
              by_cases hii : i.id = itemId
              · simp [hii]
              · simp [Function.comp, hii]
            rw [hcomp, hfind]
            simp [hid]
          simp only [voidOrderItem]
          rw [if_neg (by rw [hsttrue]; simp)]
          rw [hfind2]
          simp

/-- A CONFIRMED order holding one active and one already voided item, used by
the C8 witness. -/
def sampleVoidableOrder : Order :=
  ⟨"order-4", 9, OrderStatus.CONFIRMED, 10000, none, none, 10000,
    [sampleItem, ⟨"item-2", "prod-2", "Spring Rolls", 2500, 2, 1,
      OrderItemStatus.VOIDED, some "spilled"⟩]⟩

/-- C8 witness: voiding the already-voided item of a concrete CONFIRMED order
is rejected with the already-voided InvalidState error. -/
theorem voidOrderItem_spec_witness :
    voidOrderItem sampleVoidableOrder "item-2" "duplicate" =
      Except.error (InvalidStateError ErrorMessage.ORDER_ITEM.ALREADY_VOIDED) :=
  (voidOrderItem_spec sampleVoidableOrder "item-2" "duplicate").2.2.1
    ⟨"item-2", "prod-2", "Spring Rolls", 2500, 2, 1, OrderItemStatus.VOIDED, some "spilled"⟩
    rfl (by decide) rfl

/-- A left fold of `max` stays inside the list and bounds every element,
mirroring the `Math.max` spread in `getNextBatchSequence`. -/
theorem foldl_max_spec (b : Int) (bs : List Int) :
    bs.foldl max b ∈ b :: bs ∧ ∀ x ∈ b :: bs, x ≤ bs.foldl max b := by
  induction bs generalizing b with
  | nil => simp
  | cons c cs ih =>
    obtain ⟨hmem, hle⟩ := ih (max b c)
    have hmaxle : max b c ≤ cs.foldl max (max b c) := hle _ (List.mem_cons_self _ _)
    constructor
    · rw [List.foldl_cons]
      rcases List.mem_cons.mp hmem with h | h
      · rcases max_choice b c with hm | hm
        · rw [h, hm]
          exact List.mem_cons_self _ _
        · rw [h, hm]
          exact List.mem_cons_of_mem _ (List.mem_cons_self _ _)
      · exact List.mem_cons_of_mem _ (List.mem_cons_of_mem _ h)
    · intro x hx
      rw [List.foldl_cons]
      rcases List.mem_cons.mp hx with rfl | hx2
      · exact le_trans (le_max_left x c) hmaxle
      · rcases List.mem_cons.mp hx2 with rfl | h
        · exact le_trans (le_max_right b x) hmaxle
        · exact hle x (List.mem_cons_of_mem _ h)

/-- C9: `getNextBatchSequence` returns 1 on the empty list and the maximum
existing batch sequence plus one otherwise, and `addItemsToOrder` stamps every
item inserted by one call with exactly that number computed from the locked
snapshot of the items. -/
theorem getNextBatchSequence_spec :
    getNextBatchSequence [] = 1 ∧
    (∀ items : List OrderItem, items ≠ [] →
      ∃ i, i ∈ items ∧ getNextBatchSequence items = i.batchSequence + 1 ∧
        ∀ j ∈ items, j.batchSequence ≤ i.batchSequence) ∧
    (∀ (order : Order) itemsInput o, addItemsToOrder order itemsInput = Except.ok o →
      ∃ newItems, o.items = order.items ++ newItems ∧
        newItems.length = itemsInput.length ∧
        ∀ n ∈ newItems, n.batchSequence = getNextBatchSequence order.items) := by
  refine ⟨rfl, ?_, ?_⟩
  · intro items hne
    cases items with
    | nil => exact absurd rfl hne
    | cons x xs =>
      obtain ⟨hmem, hle⟩ := foldl_max_spec x.batchSequence
        (xs.map (fun item => item.batchSequence))
      have hgns : getNextBatchSequence (x :: xs)
          = (xs.map (fun item => item.batchSequence)).foldl max x.batchSequence + 1 := by
        simp [getNextBatchSequence]
      have hboundall : ∀ j ∈ x :: xs, j.batchSequence ≤
          (xs.map (fun item => item.batchSequence)).foldl max x.batchSequence := by
        intro j hj
        rcases List.mem_cons.mp hj with h | h
        · rw [h]
          exact hle _ (List.mem_cons_self _ _)
        · exact hle _ (List.mem_cons_of_mem _ (List.mem_map_of_mem _ h))
      rcases List.mem_cons.mp hmem with hm | hm
      · refine ⟨x, List.mem_cons_self _ _, by rw [hgns, hm], ?_⟩
        intro j hj
        rw [← hm]
        exact hboundall j hj
      · obtain ⟨i, hi, hieq⟩ := List.mem_map.mp hm
        refine ⟨i, List.mem_cons_of_mem _ hi, by rw [hgns, hieq], ?_⟩
        intro j hj
        rw [hieq]
        exact hboundall j hj
  · intro order itemsInput o ho
    simp only [addItemsToOrder] at ho
    by_cases hadd : canAddItems order.status = false
    · rw [if_pos hadd] at ho
      cases ho
    · rw [if_neg hadd] at ho
      injection ho with ho
      subst ho
      refine ⟨_, rfl, List.length_map _ _, ?_⟩
      intro n hn
      obtain ⟨inp, hinp, heq⟩ := List.mem_map.mp hn
      rw [← heq]

/-- An OPEN order whose two items carry batch sequences 1 and 3, used by the
C9 witness. -/
def sampleBatchOrder : Order :=
  ⟨"order-5", 2, OrderStatus.OPEN, 5500, none, none, 5500,
    [⟨"item-3", "prod-1", "Green Curry", 10000, 1, 1, OrderItemStatus.ACTIVE, none⟩,
     ⟨"item-4", "prod-3", "Mango Rice", 4500, 1, 3, OrderItemStatus.ACTIVE, none⟩]⟩

/-- C9 witness: the theorem applied to a concrete nonempty item list and a
concrete successful add-items call. -/
theorem getNextBatchSequence_spec_witness :
    (∃ i, i ∈ sampleBatchOrder.items ∧
      getNextBatchSequence sampleBatchOrder.items = i.batchSequence + 1 ∧
      ∀ j ∈ sampleBatchOrder.items, j.batchSequence ≤ i.batchSequence) ∧
    (∃ newItems,
      (addItemsToOrder sampleBatchOrder
        [⟨"item-5", "prod-1", "Green Curry", 10000, 2⟩]).map (fun o => o.items)
        = Except.ok (sampleBatchOrder.items ++ newItems) ∧
      ∀ n ∈ newItems, n.batchSequence = getNextBatchSequence sampleBatchOrder.items) := by
  constructor
  · exact getNextBatchSequence_spec.2.1 sampleBatchOrder.items (by decide)
  · obtain ⟨newItems, h1, _h2, h3⟩ := getNextBatchSequence_spec.2.2 sampleBatchOrder
      [⟨"item-5", "prod-1", "Green Curry", 10000, 2⟩] _ rfl
    exact ⟨newItems, by rw [← h1]; rfl, h3⟩

/-- C5: for a checkout call with a PERCENT discount, the pre-lock validation
(the code before `withOrderLock` acquires the lock, modelled by
`checkoutValidateDiscount`) raises the PERCENT_RANGE Validation error exactly
for values outside `[0, 50]`: outside the range every order, whatever its
state, gets that error; inside the range the pre-lock validation succeeds, and
on a CONFIRMED order with an active item the checkout raises no error at all;
the boundary value 50 is accepted. -/
theorem checkout_percent_range_spec (v : ℚ) :
    ((v < 0 ∨ 50 < v) →
      checkoutValidateDiscount (some DiscountType.PERCENT) (some v) =
        Except.error (ValidationError ErrorMessage.DISCOUNT.PERCENT_RANGE) ∧
      ∀ order : Order, checkoutOrder order (some DiscountType.PERCENT) (some v) =
        Except.error (ValidationError ErrorMessage.DISCOUNT.PERCENT_RANGE)) ∧
    (¬(v < 0 ∨ 50 < v) →
      checkoutValidateDiscount (some DiscountType.PERCENT) (some v) =
        Except.ok (some (toBigInt v)) ∧
      ∀ order : Order, order.status = OrderStatus.CONFIRMED →
        (order.items.filter (fun item => item.status = OrderItemStatus.ACTIVE)).length ≠ 0 →
        ∃ o, checkoutOrder order (some DiscountType.PERCENT) (some v) = Except.ok o) ∧
    checkoutValidateDiscount (some DiscountType.PERCENT) (some (50 : ℚ)) =
      Except.ok (some (toBigInt (50 : ℚ))) := by
  refine ⟨?_, ?_, ?_⟩
  · intro h
    have hpre : checkoutValidateDiscount (some DiscountType.PERCENT) (some v) =
        Except.error (ValidationError ErrorMessage.DISCOUNT.PERCENT_RANGE) := by
      simp [checkoutValidateDiscount, h]
    exact ⟨hpre, fun order => by simp [checkoutOrder, hpre]⟩
  · intro h
    have hpre : checkoutValidateDiscount (some DiscountType.PERCENT) (some v) =
        Except.ok (some (toBigInt v)) := by
      simp [checkoutValidateDiscount, h]
    refine ⟨hpre, ?_⟩
    intro order hst hact
    cases hres : checkoutApply order (some DiscountType.PERCENT) (some (toBigInt v)) with
    | error e =>
      exfalso
      revert hres
      simp [checkoutApply, canCheckout, hst, hact, fixedDiscountExceeds]
    | ok o2 =>
      exact ⟨o2, by simp [checkoutOrder, hpre, hres]⟩
  · have h50 : ¬((50 : ℚ) < 0 ∨ 50 < (50 : ℚ)) := by norm_num
    simp [checkoutValidateDiscount, h50]

/-- C5 witness: value 51 is rejected with the PERCENT_RANGE error on a
concrete CONFIRMED order, and value 50 is accepted by the pre-lock check. -/
theorem checkout_percent_range_spec_witness :
    ((51 : ℚ) < 0 ∨ (50 : ℚ) < 51) ∧
    checkoutOrder sampleConfirmedOrder (some DiscountType.PERCENT) (some (51 : ℚ)) =
      Except.error (ValidationError ErrorMessage.DISCOUNT.PERCENT_RANGE) ∧
    checkoutValidateDiscount (some DiscountType.PERCENT) (some (50 : ℚ)) =
      Except.ok (some (toBigInt (50 : ℚ))) :=
  ⟨Or.inr (by decide),
   ((checkout_percent_range_spec 51).1 (Or.inr (by decide))).2 sampleConfirmedOrder,
   (checkout_percent_range_spec 0).2.2⟩

/-- C6: for a checkout call with a FIXED discount on a CONFIRMED order with at
least one ACTIVE item, an error is raised exactly when the discount value
strictly exceeds the subtotal recomputed inside the lock from the snapshot
items, and that error is the EXCEEDS_SUBTOTAL Validation error; a value equal
to the subtotal is accepted and yields grand total 0 with status PAID. -/
theorem checkout_fixed_discount_boundary (order : Order) (v : Int)
    (hstatus : order.status = OrderStatus.CONFIRMED)
    (hactive : (order.items.filter
      (fun item => item.status = OrderItemStatus.ACTIVE)).length ≠ 0) :
    ((∃ e, checkoutOrder order (some DiscountType.FIXED) (some (v : ℚ)) = Except.error e) ↔
      calculateSubtotal (order.items.map toCalculationItem) < v) ∧
    (calculateSubtotal (order.items.map toCalculationItem) < v →
      checkoutOrder order (some DiscountType.FIXED) (some (v : ℚ)) =
        Except.error (ValidationError ErrorMessage.DISCOUNT.EXCEEDS_SUBTOTAL)) ∧
    (v = calculateSubtotal (order.items.map toCalculationItem) →
      ∃ o, checkoutOrder order (some DiscountType.FIXED) (some (v : ℚ)) = Except.ok o ∧
        o.grandTotal = 0 ∧ o.status = OrderStatus.PAID) := by
  have hpre : checkoutValidateDiscount (some DiscountType.FIXED) (some (v : ℚ)) =
      Except.ok (some v) := by
    simp [checkoutValidateDiscount, toBigInt_intCast]
  have hco : checkoutOrder order (some DiscountType.FIXED) (some (v : ℚ))
      = checkoutApply order (some DiscountType.FIXED) (some v) := by
    simp [checkoutOrder, hpre]
  by_cases hlt : calculateSubtotal (order.items.map toCalculationItem) < v
  · have herr : checkoutApply order (some DiscountType.FIXED) (some v) =
        Except.error (ValidationError ErrorMessage.DISCOUNT.EXCEEDS_SUBTOTAL) := by
      simp [checkoutApply, canCheckout, hstatus, hactive, fixedDiscountExceeds,
        recalculateOrderTotals, hlt]
    refine ⟨⟨fun _ => hlt, fun _ => ⟨_, by rw [hco, herr]⟩⟩, fun _ => by rw [hco, herr], ?_⟩
    intro hveq
    exfalso
    omega
  · have hok : checkoutApply order (some DiscountType.FIXED) (some v) =
        Except.ok { order with
          status := OrderStatus.PAID
          subtotal := calculateSubtotal (order.items.map toCalculationItem)
          discountType := some DiscountType.FIXED
          discountValue := some v
          grandTotal := calculateGrandTotal
            (calculateSubtotal (order.items.map toCalculationItem))
            (calculateDiscount (calculateSubtotal (order.items.map toCalculationItem))
              (some DiscountType.FIXED) (some v)) } := by
      simp [checkoutApply, canCheckout, hstatus, hactive, fixedDiscountExceeds,
        recalculateOrderTotals, hlt]
    refine ⟨⟨?_, fun h => absurd h hlt⟩, fun h => absurd h hlt, ?_⟩
    · rintro ⟨e, he⟩
      rw [hco, hok] at he
      cases he
    · intro hveq
      refine ⟨_, by rw [hco, hok], ?_, rfl⟩
      show calculateGrandTotal (calculateSubtotal (order.items.map toCalculationItem))
          (calculateDiscount (calculateSubtotal (order.items.map toCalculationItem))
            (some DiscountType.FIXED) (some v)) = 0
      rw [hveq]
      simp [calculateDiscount, calculateGrandTotal]

/-- C6 witness: on a concrete CONFIRMED order with subtotal 10000, a FIXED
discount of exactly 10000 checks out to grand total 0 and status PAID. -/
theorem checkout_fixed_discount_boundary_witness :
    sampleConfirmedOrder.status = OrderStatus.CONFIRMED ∧
    (sampleConfirmedOrder.items.filter
      (fun item => item.status = OrderItemStatus.ACTIVE)).length ≠ 0 ∧
    ∃ o, checkoutOrder sampleConfirmedOrder (some DiscountType.FIXED)
        (some ((10000 : Int) : ℚ)) = Except.ok o ∧
      o.grandTotal = 0 ∧ o.status = OrderStatus.PAID :=
  ⟨rfl, by decide,
    (checkout_fixed_discount_boundary sampleConfirmedOrder 10000 rfl (by decide)).2.2
      (by decide)⟩

/-- C10: `checkoutOrder` does not reject a non-integer discount value that
passes the range check: `toBigInt` rounds it to the nearest integer with
`Math.round` (10.5 becomes 11, 100.4 becomes 100, so rounding to nearest
rather than truncation), no Validation error is raised for the fractional
input, and the discount is computed from the rounded value. -/
theorem checkout_fractional_value_rounds :
    toBigInt (10.5 : ℚ) = 11 ∧
    toBigInt (100.4 : ℚ) = 100 ∧
    (∀ q : ℚ, ¬(q < 0 ∨ 50 < q) →
      checkoutValidateDiscount (some DiscountType.PERCENT) (some q) =
        Except.ok (some (toBigInt q))) ∧
    (∀ q : ℚ, checkoutValidateDiscount (some DiscountType.FIXED) (some q) =
      Except.ok (some (toBigInt q))) ∧
    checkoutOrder sampleConfirmedOrder (some DiscountType.PERCENT) (some (10.5 : ℚ)) =
      Except.ok { sampleConfirmedOrder with
        status := OrderStatus.PAID
        discountType := some DiscountType.PERCENT
        discountValue := some 11
        grandTotal := 8900 } ∧
    checkoutOrder sampleConfirmedOrder (some DiscountType.FIXED) (some (100.4 : ℚ)) =
      Except.ok { sampleConfirmedOrder with
        status := OrderStatus.PAID
        discountType := some DiscountType.FIXED
        discountValue := some 100
        grandTotal := 9900 } := by
  have h105 : toBigInt (10.5 : ℚ) = 11 := by
    unfold toBigInt mathRound
    norm_num
  have h1004 : toBigInt (100.4 : ℚ) = 100 := by
    unfold toBigInt mathRound
    norm_num
  refine ⟨h105, h1004, ?_, ?_, ?_, ?_⟩
  · intro q hq
    simp [checkoutValidateDiscount, hq]
  · intro q
    simp [checkoutValidateDiscount]
  · have hcond : ¬((10.5 : ℚ) < 0 ∨ 50 < (10.5 : ℚ)) := by norm_num
    have hpre : checkoutValidateDiscount (some DiscountType.PERCENT) (some (10.5 : ℚ)) =
        Except.ok (some 11) := by
      rw [show (some (11 : Int)) = some (toBigInt (10.5 : ℚ)) by rw [h105]]
      simp [checkoutValidateDiscount, hcond]
    simp only [checkoutOrder, hpre]
    rfl
  · have hpre : checkoutValidateDiscount (some DiscountType.FIXED) (some (100.4 : ℚ)) =
        Except.ok (some 100) := by
      rw [show (some (100 : Int)) = some (toBigInt (100.4 : ℚ)) by rw [h1004]]
      simp [checkoutValidateDiscount]
    simp only [checkoutOrder, hpre]
    rfl

/-- C10 witness: the general PERCENT acceptance conjunct applied at the
in-range value 50. -/
theorem checkout_fractional_value_rounds_witness :
    ¬((50 : ℚ) < 0 ∨ 50 < (50 : ℚ)) ∧
    checkoutValidateDiscount (some DiscountType.PERCENT) (some (50 : ℚ)) =
      Except.ok (some (toBigInt (50 : ℚ))) :=
  ⟨by decide, checkout_fractional_value_rounds.2.2.1 50 (by decide)⟩

end POS
